import Mathlib

/-!
# Verification of the QR-code application core

A shallow embedding of the server-side core of a Shopify QR-code app:

* `getDestinationUrl` — resolves a stored record to its destination URL
  (`app/models/QRCode.server` in the repository);
* `extractVariantId` — the regex `gid://shopify/ProductVariant/([0-9]+)`
  used by the resolver, modelled as a leftmost-match scanner with a greedy
  digit capture;
* `validateQRCode` — presence validation of the QR-code form;
* `getQRCodeImage` / `supplementQRCode` / `getQRCodes` — image-payload
  construction and record enrichment;
* `scanLoader` — the public scan route (`app/routes/qrcodes.$id.scan`);
* `formAction` — the create/update/delete form action
  (`app/routes/app.qrcodes.$id`).

External collaborators (the image-encoding library, the remote
product-lookup API, the storage layer) are modelled as explicit parameters
or as explicit state passing over a list of records, following the
boundaries drawn by the code itself.
-/

/-- A persisted QR-code record (the Prisma `qRCode` row as consumed by the
application code): owning shop, title, destination kind, product reference,
variant reference, denormalized product handle and the scan counter.
JavaScript strings are `String`; the numeric id and the counter are `Nat`. -/
structure QRCode where
  id : Nat
  shop : String
  title : String
  productId : String
  productVariantId : String
  productHandle : String
  destination : String
  scans : Nat
  deriving DecidableEq, Repr

/-- The literal part of the regex `/gid:\/\/shopify\/ProductVariant\/([0-9]+)/`
from `getDestinationUrl`, as a character list. -/
def pvPattern : List Char := "gid://shopify/ProductVariant/".data

/-- Greedy capture of `[0-9]+`: the maximal leading run of ASCII digits. -/
def leadingDigits : List Char → List Char
  | [] => []
  | c :: cs => if c.isDigit then c :: leadingDigits cs else []

/-- Leftmost-match semantics of `regex.exec`: try the pattern at each
position from the left; on a position where the literal matches and at
least one digit follows, return the greedy digit capture, otherwise
advance one character. -/
def findVariantDigits : List Char → Option (List Char)
  | [] => none
  | c :: cs =>
    if pvPattern.isPrefixOf (c :: cs) then
      match (c :: cs).drop pvPattern.length with
      | d :: _ =>
        if d.isDigit then some (leadingDigits ((c :: cs).drop pvPattern.length))
        else findVariantDigits cs
      | [] => findVariantDigits cs
    else findVariantDigits cs

/-- The capture group of
`/gid:\/\/shopify\/ProductVariant\/([0-9]+)/.exec(s)`: `none` models a
`null` match (and hence the `invariant` failure in `getDestinationUrl`). -/
def extractVariantId (s : String) : Option String :=
  (findVariantDigits s.data).map List.asString

/-- Model of `getDestinationUrl` from `app/models/QRCode.server`: the `product`
destination maps to the product page; every other destination goes through
the variant-reference regex, a failed match raising
`Unrecognized product variant ID` (the `invariant` call), modelled as
`Except.error`. -/
def getDestinationUrl (q : QRCode) : Except String String :=
  if q.destination = "product" then
    Except.ok ("https://" ++ q.shop ++ "/products/" ++ q.productHandle)
  else
    match extractVariantId q.productVariantId with
    | some digits => Except.ok ("https://" ++ q.shop ++ "/cart/" ++ digits ++ ":1")
    | none => Except.error "Unrecognized product variant ID"

/-- The data submitted to the form action: the optional `action`
discriminator plus the form fields copied by `handleSave` in the form
route. A missing `FormData` entry and an empty submitted value are both
falsy in the JavaScript checks, so plain fields are `String` with `""` for
absent. -/
structure QRCodeForm where
  action : Option String
  title : String
  productId : String
  productVariantId : String
  productHandle : String
  destination : String
  deriving DecidableEq, Repr

/-- The `errors` object built by `validateQRCode`: at most one entry per
required field, keyed by field name. -/
structure QRErrors where
  title : Option String
  productId : Option String
  destination : Option String
  deriving DecidableEq, Repr

/-- Model of `validateQRCode` from `app/models/QRCode.server`: one message per
falsy required field; the function returns the object only when
`Object.keys(errors).length` is nonzero (`none` models the implicit
`undefined` return). -/
def validateQRCode (d : QRCodeForm) : Option QRErrors :=
  let e : QRErrors :=
    { title := if d.title = "" then some "Title is required" else none
      productId := if d.productId = "" then some "Product is required" else none
      destination := if d.destination = "" then some "Destination is required" else none }
  if e.title.isSome || e.productId.isSome || e.destination.isSome then some e else none

/-- The value of `Object.keys(errors).length` on the error object. -/
def QRErrors.count (e : QRErrors) : Nat :=
  (if e.title.isSome then 1 else 0) + (if e.productId.isSome then 1 else 0) +
    (if e.destination.isSome then 1 else 0)

/-- Number of error entries in an optional error object. -/
def errorEntryCount : Option QRErrors → Nat
  | none => 0
  | some e => e.count

/-- The number of missing required fields of a form draft (this follows
the specification text, for comparison with the validator). -/
def missingFieldCount (d : QRCodeForm) : Nat :=
  (if d.title = "" then 1 else 0) + (if d.productId = "" then 1 else 0) +
    (if d.destination = "" then 1 else 0)

/-- The scan URL built by `getQRCodeImage`:
`new URL("/qrcodes/" + id + "/scan", base).href` with `base` the
configured app origin (`SHOPIFY_APP_URL`); resolving a root-relative path
against an origin yields the origin followed by that path. -/
def buildScanUrl (base : String) (id : Nat) : String :=
  base ++ "/qrcodes/" ++ toString id ++ "/scan"

/-- Model of `getQRCodeImage` from `app/models/QRCode.server`: builds the scan URL
and hands it to the external `qrcode.toDataURL` encoder `enc` (the
image-encoding collaborator), whose outcome — data-URI payload or
failure — is returned unchanged. -/
def getQRCodeImage (enc : String → Except String String) (base : String)
    (id : Nat) : Except String String :=
  enc (buildScanUrl base id)

/-- One node of the product-image connection returned by the Admin
GraphQL query (`url` is non-null there, `altText` is nullable). -/
structure ImageNode where
  altText : Option String
  url : String
  deriving DecidableEq, Repr

/-- The product object of the `supplementQRCode` GraphQL query; the
remote lookup returns `none` for a product that no longer exists. -/
structure ShopProduct where
  title : String
  images : List ImageNode
  deriving DecidableEq, Repr

/-- The enriched view assembled by `supplementQRCode`: the record spread
plus product data, the destination URL and the QR image payload. -/
structure SupplementedQRCode where
  code : QRCode
  productDeleted : Bool
  productTitle : Option String
  productImage : Option String
  productAlt : Option String
  destinationUrl : String
  image : String
  deriving DecidableEq, Repr

/-- Model of `supplementQRCode` from `app/models/QRCode.server`: queries the
product-lookup collaborator, then builds the view object. In the object
literal `destinationUrl: getDestinationUrl(qrCode)` is evaluated before
`image: await qrCodeImagePromise`, so an `invariant` throw from the
resolver pre-empts an encoder failure; both abort the whole enrichment.
`productDeleted` is `!product?.title`, null product fields stay absent. -/
def supplementQRCode (enc : String → Except String String) (base : String)
    (lookup : String → Option ShopProduct) (q : QRCode) :
    Except String SupplementedQRCode := do
  let product := lookup q.productId
  let destinationUrl ← getDestinationUrl q
  let image ← getQRCodeImage enc base q.id
  Except.ok
    { code := q
      productDeleted :=
        match product with
        | none => true
        | some p => p.title == ""
      productTitle := product.map ShopProduct.title
      productImage := product.bind fun p => (p.images.head?).map ImageNode.url
      productAlt := product.bind fun p => (p.images.head?).bind ImageNode.altText
      destinationUrl := destinationUrl
      image := image }

/-- Records sorted by descending id: `a` before `b` when `b.id ≤ a.id`. -/
def qrGE (a b : QRCode) : Prop := b.id ≤ a.id

instance : DecidableRel qrGE := fun a b => Nat.decLe b.id a.id

instance : IsTotal QRCode qrGE := ⟨fun a b => Nat.le_total b.id a.id⟩

instance : IsTrans QRCode qrGE := ⟨fun _ _ _ h1 h2 => Nat.le_trans h2 h1⟩

/-- The storage collaborator's
`findMany({ where: { shop }, orderBy: { id: "desc" } })`: the shop's
records ordered by descending id. -/
def findManyByShopDesc (db : List QRCode) (shop : String) : List QRCode :=
  List.insertionSort qrGE (db.filter fun q => q.shop == shop)

/-- Model of `getQRCodes` from `app/models/QRCode.server`: fetch the shop's
records (descending id), short-circuit an empty list, otherwise enrich
every record (`Promise.all` keeps the list order and fails if any single
enrichment fails). -/
def getQRCodes (enc : String → Except String String) (base : String)
    (lookup : String → Option ShopProduct) (db : List QRCode) (shop : String) :
    Except String (List SupplementedQRCode) :=
  let qrCodes := findManyByShopDesc db shop
  if qrCodes.length = 0 then Except.ok []
  else qrCodes.mapM (supplementQRCode enc base lookup)

/-- The scan-count update of the scan route
(`update({ where: { id }, data: { scans: { increment: 1 } } })`): the
record with the matching id gets `scans + 1`, all others are unchanged. -/
def incrementScans (db : List QRCode) (id : Nat) : List QRCode :=
  db.map fun r => if r.id == id then { r with scans := r.scans + 1 } else r

/-- The loader of `app/routes/qrcodes.$id.scan`, as explicit state
passing over the record list: missing id or missing record raise the
`Could not find QR code destination` invariant; otherwise the scan
counter is incremented first and the destination URL is resolved
afterwards, so a resolver failure still leaves the increment in place.
The returned pair is the database after the request and the outcome
(redirect URL or error). -/
def scanLoader (paramsId : Option Nat) (db : List QRCode) :
    List QRCode × Except String String :=
  match paramsId with
  | none => (db, Except.error "Could not find QR code destination")
  | some id =>
    match db.find? (fun q => q.id == id) with
    | none => (db, Except.error "Could not find QR code destination")
    | some q =>
      let db2 := incrementScans db id
      match getDestinationUrl q with
      | Except.ok url => (db2, Except.ok url)
      | Except.error e => (db2, Except.error e)

/-- The dynamic segment of the form route: the literal `new` or an
existing numeric record id. -/
inductive RouteParam where
  | newRecord : RouteParam
  | existing : Nat → RouteParam
  deriving DecidableEq, Repr

/-- The response of the form action: a redirect, or the validation-error
body (`json({ errors }, { status: 422 })`) with its HTTP status. -/
inductive ActionResponse where
  | redirect : String → ActionResponse
  | validationFailed : QRErrors → Nat → ActionResponse
  deriving DecidableEq, Repr

/-- The id the storage layer generates for a created row, modelled as one
past the largest id in the table. -/
def nextId (db : List QRCode) : Nat :=
  (db.foldr (fun q m => max q.id m) 0) + 1

/-- The row built by `db.qRCode.create` from the submitted fields plus
the session shop; the scan counter starts at zero. -/
def createRecord (id : Nat) (shop : String) (f : QRCodeForm) : QRCode :=
  { id := id, shop := shop, title := f.title, productId := f.productId,
    productVariantId := f.productVariantId, productHandle := f.productHandle,
    destination := f.destination, scans := 0 }

/-- Model of `db.qRCode.update`: full replacement of the submitted fields (and the
session shop); id and scan counter are untouched. -/
def replaceRecord (old : QRCode) (shop : String) (f : QRCodeForm) : QRCode :=
  { old with
      shop := shop
      title := f.title
      productId := f.productId
      productVariantId := f.productVariantId
      productHandle := f.productHandle
      destination := f.destination }

/-- The action of `app/routes/app.qrcodes.$id`: a `delete` discriminator
deletes by `Number(params.id)` and redirects to `/app` (the storage layer
throws on a missing row, and `Number("new")` is `NaN`, which matches no
row — both modelled as `Except.error`); otherwise the draft is validated
(errors come back as a 422 body), and a valid save either creates a row
(`params.id === "new"`) or fully replaces the existing row, redirecting
to `/app/qrcodes/{id}` of the affected row. -/
def formAction (p : RouteParam) (shop : String) (f : QRCodeForm)
    (db : List QRCode) : List QRCode × Except String ActionResponse :=
  if f.action = some "delete" then
    match p with
    | RouteParam.newRecord => (db, Except.error "Record to delete does not exist.")
    | RouteParam.existing i =>
      if db.any (fun q => q.id == i) then
        (db.filter (fun q => !(q.id == i)),
          Except.ok (ActionResponse.redirect "/app"))
      else (db, Except.error "Record to delete does not exist.")
  else
    match validateQRCode f with
    | some errors => (db, Except.ok (ActionResponse.validationFailed errors 422))
    | none =>
      match p with
      | RouteParam.newRecord =>
        let q := createRecord (nextId db) shop f
        (db ++ [q],
          Except.ok (ActionResponse.redirect ("/app/qrcodes/" ++ toString q.id)))
      | RouteParam.existing i =>
        if db.any (fun q => q.id == i) then
          (db.map (fun q => if q.id == i then replaceRecord q shop f else q),
            Except.ok (ActionResponse.redirect ("/app/qrcodes/" ++ toString i)))
        else (db, Except.error "Record to update does not exist.")

/-- A concrete `product`-destination record. -/
def sampleProductQR : QRCode :=
  { id := 1, shop := "example.myshopify.com", title := "Sale",
    productId := "gid://shopify/Product/11",
    productVariantId := "gid://shopify/ProductVariant/22",
    productHandle := "sale-item", destination := "product", scans := 0 }

/-- A concrete `cart`-destination record with a well-formed variant
reference. -/
def sampleCartQR : QRCode :=
  { id := 2, shop := "example.myshopify.com", title := "Cart code",
    productId := "gid://shopify/Product/11",
    productVariantId := "gid://shopify/ProductVariant/12345",
    productHandle := "sale-item", destination := "cart", scans := 3 }

/-- A concrete `cart`-destination record whose variant reference has no
digits after the pattern. -/
def sampleBadCartQR : QRCode :=
  { id := 3, shop := "example.myshopify.com", title := "Broken",
    productId := "gid://shopify/Product/11",
    productVariantId := "gid://shopify/ProductVariant/abc",
    productHandle := "sale-item", destination := "cart", scans := 0 }

/-- A cart record whose variant reference does not contain the pattern at
all. -/
def badRefCartQR : QRCode :=
  { id := 9, shop := "example.myshopify.com", title := "Bad",
    productId := "gid://shopify/Product/9", productVariantId := "oops",
    productHandle := "h", destination := "cart", scans := 0 }

/-- An always-succeeding image encoder. -/
def okEncoder : String → Except String String :=
  fun s => Except.ok ("data:image/png;base64," ++ s)

/-- An always-failing image encoder. -/
def failingEncoder : String → Except String String :=
  fun _ => Except.error "encode failure"

/-- A delete submission with every validatable field empty. -/
def deleteForm : QRCodeForm :=
  { action := some "delete", title := "", productId := "",
    productVariantId := "", productHandle := "", destination := "" }

/-- A complete, valid save submission. -/
def validSaveForm : QRCodeForm :=
  { action := none, title := "Summer sale",
    productId := "gid://shopify/Product/5",
    productVariantId := "gid://shopify/ProductVariant/55",
    productHandle := "summer", destination := "product" }

/-- A save submission missing its title and destination. -/
def invalidSaveForm : QRCodeForm :=
  { action := none, title := "", productId := "gid://shopify/Product/5",
    productVariantId := "", productHandle := "", destination := "" }

/-! ## Regex-model lemmas -/

/-- The greedy capture consumes an all-digit list whole. -/
theorem leadingDigits_of_all_digits :
    ∀ (l : List Char), (∀ c ∈ l, c.isDigit = true) → leadingDigits l = l
  | [], _ => rfl
  | c :: cs, h => by
    have hc : c.isDigit = true := h c (List.mem_cons_self c cs)
    have ih := leadingDigits_of_all_digits cs (fun x hx => h x (List.mem_cons_of_mem c hx))
    simp [leadingDigits, hc, ih]

/-- A list is a Boolean prefix of itself followed by anything. -/
theorem isPrefixOf_append_self :
    ∀ (l t : List Char), l.isPrefixOf (l ++ t) = true
  | [], _ => by simp [List.isPrefixOf]
  | c :: cs, t => by
    simp [List.isPrefixOf, isPrefixOf_append_self cs t]

/-- One-step unfolding of the scanner on a nonempty list. -/
theorem findVariantDigits_cons (c : Char) (cs : List Char) :
    findVariantDigits (c :: cs) =
      if pvPattern.isPrefixOf (c :: cs) then
        match (c :: cs).drop pvPattern.length with
        | d :: _ =>
          if d.isDigit then some (leadingDigits ((c :: cs).drop pvPattern.length))
          else findVariantDigits cs
        | [] => findVariantDigits cs
      else findVariantDigits cs := rfl

/-- On input that is exactly the literal pattern followed by a nonempty
all-digit list, the scanner matches at position 0 and captures the whole
digit list. -/
theorem findVariantDigits_pattern_append (d : List Char) (hne : d ≠ [])
    (hd : ∀ c ∈ d, c.isDigit = true) :
    findVariantDigits (pvPattern ++ d) = some d := by
  obtain ⟨d0, dr, rfl⟩ : ∃ d0 dr, d = d0 :: dr := by
    cases d with
    | nil => exact absurd rfl hne
    | cons a b => exact ⟨a, b, rfl⟩
  have hsplit : pvPattern ++ d0 :: dr =
      'g' :: ("id://shopify/ProductVariant/".data ++ d0 :: dr) := rfl
  rw [hsplit, findVariantDigits_cons]
  have hback : 'g' :: ("id://shopify/ProductVariant/".data ++ d0 :: dr) =
      pvPattern ++ d0 :: dr := rfl
  rw [hback, isPrefixOf_append_self, List.drop_left]
  have hd0 : d0.isDigit = true := hd d0 (List.mem_cons_self d0 dr)
  simp [hd0, leadingDigits_of_all_digits _ hd]

/-! ## Claims about the Destination Resolver -/

/-- C1: for every record with destination kind `product`, `getDestinationUrl`
returns exactly `https://{shop}/products/{productHandle}` (a pure, total
function of the record — no I/O, deterministic). -/
theorem C1_product_destination_url (q : QRCode) (h : q.destination = "product") :
    getDestinationUrl q =
      Except.ok ("https://" ++ q.shop ++ "/products/" ++ q.productHandle) := by
  simp [getDestinationUrl, h]

/-- Witness for C1 at a concrete record. -/
theorem C1_product_destination_url_witness :
    getDestinationUrl sampleProductQR =
      Except.ok ("https://" ++ sampleProductQR.shop ++ "/products/" ++
        sampleProductQR.productHandle) :=
  C1_product_destination_url sampleProductQR rfl

/-- C2: for every record with destination kind `cart` whose variant
reference is the `ProductVariant` pattern followed by digits `d`,
`getDestinationUrl` returns exactly `https://{shop}/cart/{d}:1`. -/
theorem C2_cart_destination_url (q : QRCode) (d : String)
    (hk : q.destination = "cart")
    (href : q.productVariantId = "gid://shopify/ProductVariant/" ++ d)
    (hne : d ≠ "") (hdig : ∀ c ∈ d.data, c.isDigit = true) :
    getDestinationUrl q =
      Except.ok ("https://" ++ q.shop ++ "/cart/" ++ d ++ ":1") := by
  have hdata : q.productVariantId.data = pvPattern ++ d.data := by
    rw [href, String.data_append]; rfl
  have hdne : d.data ≠ [] := by
    intro hnil
    exact hne (String.ext (hnil.trans rfl))
  have hfind : findVariantDigits q.productVariantId.data = some d.data := by
    rw [hdata]
    exact findVariantDigits_pattern_append d.data hdne hdig
  have hex : extractVariantId q.productVariantId = some d := by
    have hstr : d.data.asString = d := String.ext rfl
    simp [extractVariantId, hfind, hstr]
  have hnp : q.destination ≠ "product" := by rw [hk]; decide
  simp [getDestinationUrl, hnp, hex]

/-- Witness for C2 at a concrete record. -/
theorem C2_cart_destination_url_witness :
    getDestinationUrl sampleCartQR =
      Except.ok ("https://" ++ sampleCartQR.shop ++ "/cart/" ++ "12345" ++ ":1") :=
  C2_cart_destination_url sampleCartQR "12345" rfl rfl (by decide) (by decide)

/-- C3: for every record with destination kind `cart` whose variant
reference does not match the regex, `getDestinationUrl` fails with the
`Unrecognized product variant ID` error — it never returns a URL. -/
theorem C3_cart_invalid_reference_fails (q : QRCode)
    (hk : q.destination = "cart")
    (hmatch : extractVariantId q.productVariantId = none) :
    getDestinationUrl q = Except.error "Unrecognized product variant ID" := by
  have hnp : q.destination ≠ "product" := by rw [hk]; decide
  simp [getDestinationUrl, hnp, hmatch]

/-- Witness for C3 at a concrete record. -/
theorem C3_cart_invalid_reference_fails_witness :
    getDestinationUrl sampleBadCartQR =
      Except.error "Unrecognized product variant ID" :=
  C3_cart_invalid_reference_fails sampleBadCartQR rfl (by decide)

/-- C10: `getDestinationUrl` never tests for the `cart` kind — any record
whose destination differs from the exact string `product` (including
unknown or empty kinds) takes the cart branch: the variant-reference parse
decides between the cart URL and the invalid-reference error. -/
theorem C10_non_product_takes_cart_branch (q : QRCode)
    (h : q.destination ≠ "product") :
    getDestinationUrl q =
      match extractVariantId q.productVariantId with
      | some digits =>
        Except.ok ("https://" ++ q.shop ++ "/cart/" ++ digits ++ ":1")
      | none => Except.error "Unrecognized product variant ID" := by
  simp [getDestinationUrl, h]

/-- Witness for C10: a record with the unknown destination kind
`checkout` still resolves through the cart branch. -/
theorem C10_non_product_takes_cart_branch_witness :
    getDestinationUrl { sampleCartQR with destination := "checkout" } =
      match extractVariantId
        ({ sampleCartQR with destination := "checkout" } : QRCode).productVariantId with
      | some digits =>
        Except.ok ("https://" ++
          ({ sampleCartQR with destination := "checkout" } : QRCode).shop ++
          "/cart/" ++ digits ++ ":1")
      | none => Except.error "Unrecognized product variant ID" :=
  C10_non_product_takes_cart_branch
    { sampleCartQR with destination := "checkout" } (by decide)

/-! ## Claims about the Validator -/

/-- C4: the validator returns no errors iff title, product reference and
destination kind are all non-empty; otherwise the returned object carries
exactly one field-keyed entry per missing field, each present iff its
field is missing. -/
theorem C4_validate_presence (d : QRCodeForm) :
    (validateQRCode d = none ↔
      (d.title ≠ "" ∧ d.productId ≠ "" ∧ d.destination ≠ "")) ∧
    errorEntryCount (validateQRCode d) = missingFieldCount d ∧
    (((validateQRCode d).bind QRErrors.title).isSome = true ↔ d.title = "") ∧
    (((validateQRCode d).bind QRErrors.productId).isSome = true ↔
      d.productId = "") ∧
    (((validateQRCode d).bind QRErrors.destination).isSome = true ↔
      d.destination = "") := by
  by_cases h1 : d.title = "" <;> by_cases h2 : d.productId = "" <;>
    by_cases h3 : d.destination = "" <;>
      simp [validateQRCode, errorEntryCount, missingFieldCount, QRErrors.count,
        h1, h2, h3]

/-- Witness for C4: the form missing title and destination yields exactly
two error entries. -/
theorem C4_validate_presence_witness :
    errorEntryCount (validateQRCode invalidSaveForm) = 2 ∧
    validateQRCode validSaveForm = none := by
  constructor
  · have h := (C4_validate_presence invalidSaveForm).2.1
    rw [h]; decide
  · exact (C4_validate_presence validSaveForm).1.mpr (by decide)

/-! ## Claims about the Code Image Generator -/

/-- Counterexample to C8 as stated: the URL handed to the encoder for id 7
under base `https://app.example.com` is
`https://app.example.com/qrcodes/7/scan`, which differs from the claimed
fixed path `/<id>/scan` resolved against the base
(`https://app.example.com/7/scan`). -/
theorem C8_counterexample :
    getQRCodeImage Except.ok "https://app.example.com" 7 =
        Except.ok "https://app.example.com/qrcodes/7/scan" ∧
      "https://app.example.com/qrcodes/7/scan" ≠
        "https://app.example.com/7/scan" := by
  refine ⟨rfl, by decide⟩

/-- C8 (amended): for every id, `getQRCodeImage` builds the fixed-path
URL `/qrcodes/<id>/scan` against the configured base origin, returns the
encoder's data-URI output for exactly that URL, and propagates an
encoding failure as-is. -/
theorem C8_image_url_and_propagation (enc : String → Except String String)
    (base : String) (id : Nat) (e : String) :
    (getQRCodeImage enc base id =
      enc (base ++ "/qrcodes/" ++ toString id ++ "/scan")) ∧
    (enc (base ++ "/qrcodes/" ++ toString id ++ "/scan") = Except.error e →
      getQRCodeImage enc base id = Except.error e) :=
  ⟨rfl, fun h => h⟩

/-- Witness for C8: a failing encoder's error comes back unchanged. -/
theorem C8_image_url_and_propagation_witness :
    getQRCodeImage failingEncoder "https://app.example.com" 7 =
      Except.error "encode failure" :=
  (C8_image_url_and_propagation failingEncoder "https://app.example.com" 7
    "encode failure").2 rfl

/-! ## Claims about the Enrichment Service -/

/-- Counterexample to C5 as stated: `badRefCartQR` is a record whose
remote product lookup returns not-found, yet enrichment raises the fatal
invalid-reference error instead of returning a deleted-flagged view,
because the view's destination URL is resolved by `getDestinationUrl`,
which throws on the unparseable cart reference. -/
theorem C5_counterexample :
    supplementQRCode Except.ok "https://app.example.com" (fun _ => none)
      badRefCartQR = Except.error "Unrecognized product variant ID" := rfl

/-- C5 (amended): for every record whose remote product lookup returns
not-found and whose destination URL resolves (with the image encoding
succeeding), enrichment returns the full view with the deleted flag set
and null product title/image/alt, and raises no error. -/
theorem C5_deleted_product_view (enc : String → Except String String)
    (base : String) (lookup : String → Option ShopProduct) (q : QRCode)
    (u img : String)
    (hlook : lookup q.productId = none)
    (hdest : getDestinationUrl q = Except.ok u)
    (henc : enc (buildScanUrl base q.id) = Except.ok img) :
    supplementQRCode enc base lookup q =
      Except.ok
        { code := q, productDeleted := true, productTitle := none,
          productImage := none, productAlt := none,
          destinationUrl := u, image := img } := by
  simp only [supplementQRCode, getQRCodeImage, hlook, hdest, henc]
  rfl

/-- Witness for C5 at a concrete record with an absent remote product. -/
theorem C5_deleted_product_view_witness :
    supplementQRCode okEncoder "https://app.example.com" (fun _ => none)
      sampleProductQR =
      Except.ok
        { code := sampleProductQR, productDeleted := true,
          productTitle := none, productImage := none, productAlt := none,
          destinationUrl := "https://example.myshopify.com/products/sale-item",
          image := "data:image/png;base64,https://app.example.com/qrcodes/1/scan" } :=
  C5_deleted_product_view okEncoder "https://app.example.com" (fun _ => none)
    sampleProductQR "https://example.myshopify.com/products/sale-item"
    "data:image/png;base64,https://app.example.com/qrcodes/1/scan" rfl rfl rfl

/-- C6: `getQRCodes` fetches exactly the shop's records ordered by
descending id, enriches each of them in that order, and on a shop with no
records returns the empty list for every encoder and every product-lookup
collaborator (so neither is invoked). -/
theorem C6_get_qrcodes_by_shop (enc : String → Except String String)
    (base : String) (lookup : String → Option ShopProduct)
    (db : List QRCode) (shop : String) :
    (findManyByShopDesc db shop).Perm (db.filter fun q => q.shop == shop) ∧
    List.Sorted qrGE (findManyByShopDesc db shop) ∧
    getQRCodes enc base lookup db shop =
      (findManyByShopDesc db shop).mapM (supplementQRCode enc base lookup) ∧
    ((db.filter fun q => q.shop == shop) = [] →
      getQRCodes enc base lookup db shop = Except.ok []) := by
  refine ⟨List.perm_insertionSort qrGE _, List.sorted_insertionSort qrGE _, ?_, ?_⟩
  · unfold getQRCodes
    by_cases h : (findManyByShopDesc db shop).length = 0
    · rw [if_pos h, List.length_eq_zero.mp h]
      rfl
    · rw [if_neg h]
  · intro h
    unfold getQRCodes findManyByShopDesc
    rw [h]
    rfl

/-- Witness for C6: a shop without records gets the empty result. -/
theorem C6_get_qrcodes_by_shop_witness :
    getQRCodes okEncoder "https://app.example.com" (fun _ => none)
      [sampleProductQR] "other.myshopify.com" = Except.ok [] :=
  (C6_get_qrcodes_by_shop okEncoder "https://app.example.com" (fun _ => none)
    [sampleProductQR] "other.myshopify.com").2.2.2 (by decide)

/-! ## Claims about the Scan Handler -/

/-- Counterexample to C7 as stated: scanning id 9 finds `badRefCartQR`,
whose cart reference does not parse; the handler has already incremented
the scan counter when the resolver fails, so the request errors (no
redirect is issued) while the state is mutated. -/
theorem C7_counterexample :
    scanLoader (some 9) [badRefCartQR] =
      ([{ badRefCartQR with scans := 1 }],
        Except.error "Unrecognized product variant ID") := rfl

/-- C7 (amended): a missing id or a missing record fails with the
not-found error and leaves the state unchanged; an existing record whose
destination resolves gets its counter incremented by exactly 1 (all other
records unchanged) together with a redirect to the resolved URL; an
existing record whose destination fails to resolve still gets the
increment, with the resolver's error as the outcome. -/
theorem C7_scan_loader_spec (db : List QRCode) (id : Nat) :
    scanLoader none db =
      (db, Except.error "Could not find QR code destination") ∧
    (db.find? (fun r => r.id == id) = none →
      scanLoader (some id) db =
        (db, Except.error "Could not find QR code destination")) ∧
    (∀ q u, db.find? (fun r => r.id == id) = some q →
      getDestinationUrl q = Except.ok u →
      scanLoader (some id) db = (incrementScans db id, Except.ok u)) ∧
    (∀ q e, db.find? (fun r => r.id == id) = some q →
      getDestinationUrl q = Except.error e →
      scanLoader (some id) db = (incrementScans db id, Except.error e)) ∧
    (∀ r, r ∈ db → (r.id == id) = false → r ∈ incrementScans db id) ∧
    (∀ r, r ∈ db → (r.id == id) = true →
      { r with scans := r.scans + 1 } ∈ incrementScans db id) := by
  refine ⟨rfl, ?_, ?_, ?_, ?_, ?_⟩
  · intro h
    simp [scanLoader, h]
  · intro q u h1 h2
    simp [scanLoader, h1, h2]
  · intro q e h1 h2
    simp [scanLoader, h1, h2]
  · intro r hr hne
    exact List.mem_map.mpr ⟨r, hr, by simp [hne]⟩
  · intro r hr heq
    exact List.mem_map.mpr ⟨r, hr, by simp [heq]⟩

/-- Witness for C7: a successful scan of id 2 and a not-found scan of
id 99 on a one-record database. -/
theorem C7_scan_loader_spec_witness :
    scanLoader (some 2) [sampleCartQR] =
      (incrementScans [sampleCartQR] 2,
        Except.ok "https://example.myshopify.com/cart/12345:1") ∧
    scanLoader (some 99) [sampleCartQR] =
      ([sampleCartQR], Except.error "Could not find QR code destination") :=
  ⟨(C7_scan_loader_spec [sampleCartQR] 2).2.2.1 sampleCartQR
      "https://example.myshopify.com/cart/12345:1" rfl rfl,
    (C7_scan_loader_spec [sampleCartQR] 99).2.1 rfl⟩

/-! ## Claims about the form action -/

/-- C9: a `delete` submission on an existing record removes it and
redirects to the listing view regardless of the validatable fields; a
save with validation errors returns the 422 error body and leaves the
database unchanged; a valid save creates (under the `new` segment,
redirecting to the fresh id) or fully replaces (under an existing id,
redirecting to that id). -/
theorem C9_form_action_spec (p : RouteParam) (shop : String)
    (f : QRCodeForm) (db : List QRCode) :
    (∀ i, f.action = some "delete" → p = RouteParam.existing i →
      db.any (fun q => q.id == i) = true →
      formAction p shop f db =
        (db.filter (fun q => !(q.id == i)),
          Except.ok (ActionResponse.redirect "/app"))) ∧
    (∀ e, f.action ≠ some "delete" → validateQRCode f = some e →
      formAction p shop f db =
        (db, Except.ok (ActionResponse.validationFailed e 422))) ∧
    (f.action ≠ some "delete" → validateQRCode f = none →
      p = RouteParam.newRecord →
      formAction p shop f db =
        (db ++ [createRecord (nextId db) shop f],
          Except.ok (ActionResponse.redirect
            ("/app/qrcodes/" ++ toString (nextId db))))) ∧
    (∀ i, f.action ≠ some "delete" → validateQRCode f = none →
      p = RouteParam.existing i → db.any (fun q => q.id == i) = true →
      formAction p shop f db =
        (db.map (fun q => if q.id == i then replaceRecord q shop f else q),
          Except.ok (ActionResponse.redirect
            ("/app/qrcodes/" ++ toString i)))) := by
  refine ⟨?_, ?_, ?_, ?_⟩
  · intro i hdel hp hex
    subst hp
    simp [formAction, hdel, hex]
  · intro e hnd hv
    simp [formAction, hnd, hv]
  · intro hnd hv hp
    subst hp
    simp [formAction, hnd, hv, createRecord]
  · intro i hnd hv hp hex
    subst hp
    simp [formAction, hnd, hv, hex]

/-- Witness for C9: on concrete data — delete with an invalid draft
still deletes and redirects; an incomplete save yields the two-entry 422
body and no row; a valid save creates row 1 and redirects to it; a valid
save on existing row 1 replaces it and redirects to it. -/
theorem C9_form_action_spec_witness :
    formAction (RouteParam.existing 1) "example.myshopify.com" deleteForm
        [sampleProductQR] =
      ([], Except.ok (ActionResponse.redirect "/app")) ∧
    formAction RouteParam.newRecord "example.myshopify.com" invalidSaveForm
        [] =
      ([], Except.ok (ActionResponse.validationFailed
        { title := some "Title is required", productId := none,
          destination := some "Destination is required" } 422)) ∧
    formAction RouteParam.newRecord "example.myshopify.com" validSaveForm
        [] =
      ([createRecord 1 "example.myshopify.com" validSaveForm],
        Except.ok (ActionResponse.redirect "/app/qrcodes/1")) ∧
    formAction (RouteParam.existing 1) "example.myshopify.com" validSaveForm
        [sampleProductQR] =
      ([replaceRecord sampleProductQR "example.myshopify.com" validSaveForm],
        Except.ok (ActionResponse.redirect "/app/qrcodes/1")) :=
  ⟨(C9_form_action_spec (RouteParam.existing 1) "example.myshopify.com"
      deleteForm [sampleProductQR]).1 1 rfl rfl rfl,
    (C9_form_action_spec RouteParam.newRecord "example.myshopify.com"
      invalidSaveForm []).2.1
      { title := some "Title is required", productId := none,
        destination := some "Destination is required" }
      (by decide) rfl,
    (C9_form_action_spec RouteParam.newRecord "example.myshopify.com"
      validSaveForm []).2.2.1 (by decide) rfl rfl,
    (C9_form_action_spec (RouteParam.existing 1) "example.myshopify.com"
      validSaveForm [sampleProductQR]).2.2.2 1 (by decide) rfl rfl rfl⟩
